import Mathlib

/-!
Verification of the endpoint identifier-resolution core
(`pkg/endpoint/identifiers.go` of cilium).

The Go `Endpoint` record is modelled as a structure holding exactly the
fields this file reads.  Lock acquisition/release (`unconditionalRLock`,
`runlock`, ...) are no-ops on an immutable field snapshot, so the locked
and unlocked accessors act on the same snapshot; the liveness-gated
acquisition `rlockAlive` is modelled by an `alive` flag (see below).
Go's `netip.Addr` is modelled as `Option String`: `some s` is a valid
address whose `String()` rendering is `s`, `none` is the invalid zero
address (`IsValid` is `Option.isSome`).
-/

/-- The closed set of identifier-namespace keys from package
`pkg/endpoint/id` (`CNIAttachmentIdPrefix`, `ContainerIdPrefix`, ...). -/
inductive IdentifierKey where
  | CNIAttachmentId
  | ContainerId
  | DockerEndpoint
  | IPv4
  | IPv6
  | ContainerName
  | PodName
  | CEPName
deriving DecidableEq, Repr

/-- `id.Identifiers`: a sparse map from identifier namespaces to strings,
modelled as a function into `Option String`. -/
abbrev Identifiers : Type := IdentifierKey → Option String

/-- The empty identifier map (`make(id.Identifiers, 8)`). -/
def Identifiers.empty : Identifiers := fun _ => none

/-- Go map assignment `refs[k] = v`. -/
def Identifiers.insert (m : Identifiers) (k : IdentifierKey) (v : String) :
    Identifiers :=
  fun k' => if k' = k then some v else m k'

/-- Key membership in the identifier map. -/
def Identifiers.contains (m : Identifiers) (k : IdentifierKey) : Bool :=
  (m k).isSome

/-- The fields of the Go `Endpoint` record that this core reads. -/
structure Endpoint where
  containerID : String
  containerIfName : String
  containerName : String
  dockerEndpointID : String
  K8sNamespace : String
  K8sPodName : String
  IPv4 : Option String
  IPv6 : Option String
  ciliumEndpointUID : String
  disableLegacyIdentifiers : Bool
  /-- Modelled from the spec: endpoint liveness (`alive` / `not-alive`),
  owned by lifecycle code outside this file and observed by `rlockAlive`. -/
  alive : Bool
  /-- Modelled from the spec: the endpoint's numeric ID, external to this
  core, rendered by `StringID`. -/
  ID : Nat
deriving DecidableEq, Repr

/-- The single error kind of this core. -/
inductive EndpointError where
  | EndpointNotAlive
deriving DecidableEq, Repr

/-- Modelled from the spec: `rlockAlive` (defined outside this file) takes
the shared lock only when the endpoint is alive, and otherwise fails
immediately with the endpoint-not-alive error. -/
def Endpoint.rlockAlive (e : Endpoint) : Except EndpointError Unit :=
  if e.alive then Except.ok () else Except.error EndpointError.EndpointNotAlive

/-- Modelled from the spec: `StringID` (defined outside this file) renders
the endpoint's numeric ID as a string. -/
def Endpoint.StringID (e : Endpoint) : String := toString e.ID

/-- `GetContainerName` returns the name of the container for the endpoint. -/
def Endpoint.GetContainerName (e : Endpoint) : String := e.containerName

/-- `GetK8sPodName` returns the name of the pod. -/
def Endpoint.GetK8sPodName (e : Endpoint) : String := e.K8sPodName

/-- `GetK8sNamespaceAndPodName` returns `K8sNamespace + "/" + K8sPodName`. -/
def Endpoint.GetK8sNamespaceAndPodName (e : Endpoint) : String :=
  e.K8sNamespace ++ "/" ++ e.K8sPodName

/-- `GetK8sCEPName` returns the K8s CiliumEndpoint resource name. -/
def Endpoint.GetK8sCEPName (e : Endpoint) : String :=
  if e.disableLegacyIdentifiers = true ∧ e.K8sPodName ≠ "" ∧
      e.containerIfName ≠ "" then
    e.K8sPodName ++ "-" ++ e.containerIfName
  else
    e.K8sPodName

/-- `GetK8sNamespaceAndCEPName` returns `K8sNamespace + "/" + GetK8sCEPName`. -/
def Endpoint.GetK8sNamespaceAndCEPName (e : Endpoint) : String :=
  e.K8sNamespace ++ "/" ++ e.GetK8sCEPName

/-- `HumanString` returns the endpoint's most human readable identifier. -/
def Endpoint.HumanString (e : Endpoint) : String :=
  let cep := e.GetK8sNamespaceAndCEPName
  if cep ≠ "" then cep else e.StringID

/-- `getCNIAttachmentIDLocked` returns the endpoint's unique CNI
attachment ID. -/
def Endpoint.getCNIAttachmentIDLocked (e : Endpoint) : String :=
  if e.containerIfName ≠ "" then
    e.containerID ++ ":" ++ e.containerIfName
  else
    e.containerID

/-- `GetCNIAttachmentID` returns the endpoint's unique CNI attachment ID. -/
def Endpoint.GetCNIAttachmentID (e : Endpoint) : String :=
  e.getCNIAttachmentIDLocked

/-- `GetContainerID` returns the endpoint's container ID. -/
def Endpoint.GetContainerID (e : Endpoint) : String := e.containerID

/-- `getShortContainerIDLocked`, with the receiver as `Option Endpoint` to
model the Go nil-pointer check (`if e == nil`). -/
def getShortContainerIDLocked (e : Option Endpoint) : String :=
  match e with
  | none => ""
  | some e =>
    let cid := e.containerID
    let caplen := 10
    if cid.length ≤ caplen then cid
    else cid.take caplen

/-- `GetShortContainerID` returns the endpoint's shortened container ID. -/
def Endpoint.GetShortContainerID (e : Endpoint) : String :=
  getShortContainerIDLocked (some e)

/-- `GetDockerEndpointID`. -/
def Endpoint.GetDockerEndpointID (e : Endpoint) : String := e.dockerEndpointID

/-- `GetCiliumEndpointUID`. -/
def Endpoint.GetCiliumEndpointUID (e : Endpoint) : String :=
  e.ciliumEndpointUID

/-- `SetCiliumEndpointUID` modifies the endpoint's CiliumEndpoint UID. -/
def Endpoint.SetCiliumEndpointUID (e : Endpoint) (uid : String) : Endpoint :=
  { e with ciliumEndpointUID := uid }

/-- `IdentifiersLocked` fetches the set of attributes that uniquely
identify the endpoint, inserting each derived value in the source's
fixed order whenever its guard holds. -/
def Endpoint.IdentifiersLocked (e : Endpoint) : Identifiers :=
  let refs := Identifiers.empty
  let cniID := e.getCNIAttachmentIDLocked
  let refs := if cniID ≠ "" then
    refs.insert IdentifierKey.CNIAttachmentId cniID else refs
  let refs := if e.disableLegacyIdentifiers = false ∧ e.containerID ≠ "" then
    refs.insert IdentifierKey.ContainerId e.containerID else refs
  let refs := if e.dockerEndpointID ≠ "" then
    refs.insert IdentifierKey.DockerEndpoint e.dockerEndpointID else refs
  let refs := match e.IPv4 with
    | some s => refs.insert IdentifierKey.IPv4 s
    | none => refs
  let refs := match e.IPv6 with
    | some s => refs.insert IdentifierKey.IPv6 s
    | none => refs
  let refs := if e.disableLegacyIdentifiers = false ∧ e.containerName ≠ "" then
    refs.insert IdentifierKey.ContainerName e.containerName else refs
  let podName := e.GetK8sNamespaceAndPodName
  let refs := if e.disableLegacyIdentifiers = false ∧ podName ≠ "" then
    refs.insert IdentifierKey.PodName podName else refs
  let cepName := e.GetK8sNamespaceAndCEPName
  let refs := if cepName ≠ "" then
    refs.insert IdentifierKey.CEPName cepName else refs
  refs

/-- Alias for the `id.Identifiers` map type, usable inside the `Endpoint`
namespace where the accessor of the same name shadows it. -/
abbrev IdMap : Type := Identifiers

/-- `Identifiers` (the unlocked accessor): acquires the shared lock only if
the endpoint is alive, returning the endpoint-not-alive error otherwise,
and delegates to `IdentifiersLocked`. -/
def Endpoint.Identifiers (e : Endpoint) : Except EndpointError IdMap :=
  match e.rlockAlive with
  | Except.error err => Except.error err
  | Except.ok _ => Except.ok e.IdentifiersLocked

/-! ## Helper lemmas -/

lemma Identifiers.insert_self (m : Identifiers) (k : IdentifierKey)
    (v : String) : (m.insert k v) k = some v := by
  simp [Identifiers.insert]

lemma Identifiers.insert_ne (m : Identifiers) (k k' : IdentifierKey)
    (v : String) (h : k' ≠ k) : (m.insert k v) k' = m k' := by
  simp [Identifiers.insert, h]

/-- Pointwise description of the map built by `IdentifiersLocked`. -/
lemma identifiersLocked_lookup (e : Endpoint) (k : IdentifierKey) :
    e.IdentifiersLocked k =
      match k with
      | IdentifierKey.CNIAttachmentId =>
          if e.getCNIAttachmentIDLocked ≠ "" then
            some e.getCNIAttachmentIDLocked else none
      | IdentifierKey.ContainerId =>
          if e.disableLegacyIdentifiers = false ∧ e.containerID ≠ "" then
            some e.containerID else none
      | IdentifierKey.DockerEndpoint =>
          if e.dockerEndpointID ≠ "" then some e.dockerEndpointID else none
      | IdentifierKey.IPv4 => e.IPv4
      | IdentifierKey.IPv6 => e.IPv6
      | IdentifierKey.ContainerName =>
          if e.disableLegacyIdentifiers = false ∧ e.containerName ≠ "" then
            some e.containerName else none
      | IdentifierKey.PodName =>
          if e.disableLegacyIdentifiers = false ∧
              e.GetK8sNamespaceAndPodName ≠ "" then
            some e.GetK8sNamespaceAndPodName else none
      | IdentifierKey.CEPName =>
          if e.GetK8sNamespaceAndCEPName ≠ "" then
            some e.GetK8sNamespaceAndCEPName else none := by
  cases h4 : e.IPv4 <;> cases h6 : e.IPv6 <;> cases k <;>
    simp [Endpoint.IdentifiersLocked, h4, h6, ite_apply, Identifiers.insert,
      Identifiers.empty]

/-- A string of the form `a ++ "/" ++ b` is never empty. -/
lemma slash_append_ne_empty (a b : String) : a ++ "/" ++ b ≠ "" := by
  intro h
  have hlen := congrArg String.length h
  simp [String.length_append] at hlen
  exact absurd hlen.1.2 (by decide)

/-- A string of the form `a ++ "/" ++ b` contains the separator. -/
lemma slash_mem_append (a b : String) : '/' ∈ (a ++ "/" ++ b).data := by
  simp [String.data_append]

/-- `p` is strictly shorter than `p ++ "-" ++ i`, hence distinct from it. -/
lemma pod_ne_pod_dash_if (p i : String) : p ≠ p ++ "-" ++ i := by
  intro h
  have hlen := congrArg String.length h
  have hdash : "-".length = 1 := rfl
  simp [String.length_append, hdash] at hlen
  omega

/-! ## Claim theorems -/

/-- C1: for every field snapshot, the map returned by `IdentifiersLocked`
contains a key exactly when the corresponding inclusion rule holds:
CNIAttachmentId iff the CNI attachment ID is non-empty; ContainerId iff
legacy identifiers are not disabled and `containerID` is non-empty;
DockerEndpoint iff `dockerEndpointID` is non-empty; IPv4/IPv6 iff the
respective address is valid; ContainerName iff legacy not disabled and
`containerName` non-empty; PodName iff legacy not disabled and the
namespaced pod name non-empty; CEPName iff the namespaced CEP name
non-empty — and, the key space being this closed enumeration, no other
keys. -/
theorem C1_identifiersLocked_keys_iff (e : Endpoint) :
    (Identifiers.contains e.IdentifiersLocked IdentifierKey.CNIAttachmentId
        = true ↔ e.getCNIAttachmentIDLocked ≠ "")
    ∧ (Identifiers.contains e.IdentifiersLocked IdentifierKey.ContainerId
        = true ↔ e.disableLegacyIdentifiers = false ∧ e.containerID ≠ "")
    ∧ (Identifiers.contains e.IdentifiersLocked IdentifierKey.DockerEndpoint
        = true ↔ e.dockerEndpointID ≠ "")
    ∧ (Identifiers.contains e.IdentifiersLocked IdentifierKey.IPv4
        = true ↔ e.IPv4.isSome = true)
    ∧ (Identifiers.contains e.IdentifiersLocked IdentifierKey.IPv6
        = true ↔ e.IPv6.isSome = true)
    ∧ (Identifiers.contains e.IdentifiersLocked IdentifierKey.ContainerName
        = true ↔ e.disableLegacyIdentifiers = false ∧ e.containerName ≠ "")
    ∧ (Identifiers.contains e.IdentifiersLocked IdentifierKey.PodName
        = true ↔ e.disableLegacyIdentifiers = false ∧
          e.GetK8sNamespaceAndPodName ≠ "")
    ∧ (Identifiers.contains e.IdentifiersLocked IdentifierKey.CEPName
        = true ↔ e.GetK8sNamespaceAndCEPName ≠ "") := by
  refine ⟨?_, ?_, ?_, ?_, ?_, ?_, ?_, ?_⟩ <;>
    simp only [Identifiers.contains, identifiersLocked_lookup] <;>
    split_ifs <;> simp_all

/-- C1 witness: the CNIAttachmentId key is present for a concrete
endpoint with a non-empty container ID. -/
theorem C1_witness :
    Identifiers.contains
      (Endpoint.IdentifiersLocked
        ⟨"cid1", "eth0", "", "", "", "", none, none, "", false, true, 0⟩)
      IdentifierKey.CNIAttachmentId = true :=
  (C1_identifiersLocked_keys_iff _).1.mpr (by decide)

/-- C2: `GetK8sCEPName` returns `K8sPodName ++ "-" ++ containerIfName`
iff legacy identifiers are disabled and both `K8sPodName` and
`containerIfName` are non-empty; in every other case it returns
`K8sPodName` unchanged. -/
theorem C2_cep_name_iff (e : Endpoint) :
    (e.GetK8sCEPName = e.K8sPodName ++ "-" ++ e.containerIfName ↔
      e.disableLegacyIdentifiers = true ∧ e.K8sPodName ≠ "" ∧
        e.containerIfName ≠ "")
    ∧ (¬(e.disableLegacyIdentifiers = true ∧ e.K8sPodName ≠ "" ∧
        e.containerIfName ≠ "") → e.GetK8sCEPName = e.K8sPodName) := by
  unfold Endpoint.GetK8sCEPName
  split_ifs with hc
  · exact ⟨by simp [hc], fun h => absurd hc h⟩
  · refine ⟨⟨fun h => absurd h (pod_ne_pod_dash_if _ _), fun h => absurd h hc⟩,
      fun _ => rfl⟩

/-- C2 witness: with legacy identifiers disabled and both parts set, the
CEP name is the disambiguated `pod-ifname` form. -/
theorem C2_witness :
    Endpoint.GetK8sCEPName
        ⟨"", "eth0", "", "", "ns1", "pod1", none, none, "", true, true, 0⟩
      = "pod1-eth0" :=
  (C2_cep_name_iff _).1.mpr (by decide)

/-- C3: with legacy identifiers disabled, `IdentifiersLocked` produces
none of the ContainerId, ContainerName or PodName keys, no matter how the
container and pod fields are populated. -/
theorem C3_legacy_keys_absent (e : Endpoint)
    (h : e.disableLegacyIdentifiers = true) :
    e.IdentifiersLocked IdentifierKey.ContainerId = none
    ∧ e.IdentifiersLocked IdentifierKey.ContainerName = none
    ∧ e.IdentifiersLocked IdentifierKey.PodName = none := by
  refine ⟨?_, ?_, ?_⟩ <;> simp [identifiersLocked_lookup, h]

/-- C3 witness: a concrete legacy-disabled endpoint with all legacy
fields populated still exposes none of the legacy keys. -/
theorem C3_witness :
    Endpoint.IdentifiersLocked
        ⟨"cid1", "eth0", "name1", "dock1", "ns1", "pod1", none, none, "",
          true, true, 0⟩ IdentifierKey.ContainerId = none
    ∧ Endpoint.IdentifiersLocked
        ⟨"cid1", "eth0", "name1", "dock1", "ns1", "pod1", none, none, "",
          true, true, 0⟩ IdentifierKey.ContainerName = none
    ∧ Endpoint.IdentifiersLocked
        ⟨"cid1", "eth0", "name1", "dock1", "ns1", "pod1", none, none, "",
          true, true, 0⟩ IdentifierKey.PodName = none :=
  C3_legacy_keys_absent _ (by decide)

/-- C4: `GetShortContainerID` returns `containerID` itself when its
length is at most 10, and exactly its first 10 characters when its length
exceeds 10. -/
theorem C4_short_container_id (e : Endpoint) :
    (e.containerID.length ≤ 10 → e.GetShortContainerID = e.containerID)
    ∧ (10 < e.containerID.length →
        e.GetShortContainerID = e.containerID.take 10) := by
  unfold Endpoint.GetShortContainerID getShortContainerIDLocked
  constructor
  · intro h
    simp [h]
  · intro h
    simp [Nat.not_le.mpr h]

/-- C4 witness: a 3-character ID is returned unchanged and a
16-character ID is truncated to its first 10 characters. -/
theorem C4_witness :
    Endpoint.GetShortContainerID
        ⟨"abc", "", "", "", "", "", none, none, "", false, true, 0⟩ = "abc"
    ∧ Endpoint.GetShortContainerID
        ⟨"abcdefghijklmnop", "", "", "", "", "", none, none, "", false, true,
          0⟩ = "abcdefghij" :=
  ⟨(C4_short_container_id _).1 (by decide),
    ((C4_short_container_id _).2 (by decide)).trans (by decide)⟩

/-- C5: the CNI attachment ID equals `containerID` when `containerIfName`
is empty and `containerID ++ ":" ++ containerIfName` otherwise; the
locked and unlocked accessors agree. -/
theorem C5_cni_attachment_id (e : Endpoint) :
    (e.containerIfName = "" →
      e.getCNIAttachmentIDLocked = e.containerID)
    ∧ (e.containerIfName ≠ "" →
      e.getCNIAttachmentIDLocked =
        e.containerID ++ ":" ++ e.containerIfName)
    ∧ e.GetCNIAttachmentID = e.getCNIAttachmentIDLocked := by
  unfold Endpoint.getCNIAttachmentIDLocked Endpoint.GetCNIAttachmentID
  refine ⟨fun h => ?_, fun h => ?_, rfl⟩
  · simp [h]
  · simp [h]

/-- C5 witness: both shapes of the CNI attachment ID at concrete
endpoints. -/
theorem C5_witness :
    Endpoint.getCNIAttachmentIDLocked
        ⟨"cid1", "", "", "", "", "", none, none, "", false, true, 0⟩ = "cid1"
    ∧ Endpoint.getCNIAttachmentIDLocked
        ⟨"cid1", "eth0", "", "", "", "", none, none, "", false, true, 0⟩
      = "cid1:eth0" :=
  ⟨(C5_cni_attachment_id _).1 rfl,
    ((C5_cni_attachment_id _).2.1 (by decide)).trans (by decide)⟩

/-- C6: the unlocked accessor `Identifiers` fails with EndpointNotAlive
exactly when the liveness gate `rlockAlive` fails on a not-alive
endpoint, returning no map; on an alive endpoint it returns the very map
`IdentifiersLocked` computes, with no error. -/
theorem C6_identifiers_alive_gate (e : Endpoint) :
    (e.alive = false →
      e.Identifiers = Except.error EndpointError.EndpointNotAlive)
    ∧ (e.alive = true →
      e.Identifiers = Except.ok e.IdentifiersLocked)
    ∧ (e.Identifiers = Except.error EndpointError.EndpointNotAlive ↔
        e.rlockAlive = Except.error EndpointError.EndpointNotAlive) := by
  unfold Endpoint.Identifiers Endpoint.rlockAlive
  refine ⟨fun h => ?_, fun h => ?_, ?_⟩
  · simp [h]
  · simp [h]
  · cases h : e.alive <;> simp [h]

/-- C6 witness: a dead endpoint yields the error, an alive one yields
the locked map. -/
theorem C6_witness :
    Endpoint.Identifiers
        ⟨"cid1", "", "", "", "", "", none, none, "", false, false, 0⟩
      = Except.error EndpointError.EndpointNotAlive
    ∧ Endpoint.Identifiers
        ⟨"cid1", "", "", "", "", "", none, none, "", false, true, 0⟩
      = Except.ok (Endpoint.IdentifiersLocked
          ⟨"cid1", "", "", "", "", "", none, none, "", false, true, 0⟩) :=
  ⟨(C6_identifiers_alive_gate _).1 rfl, (C6_identifiers_alive_gate _).2.1 rfl⟩

/-- The spec's worked example endpoint: long container ID, interface
`eth0`, pod `ns1/pod1`, legacy identifiers disabled, everything else
empty or invalid. -/
def exampleEndpoint : Endpoint :=
  ⟨"abcdefghijklmnop", "eth0", "", "", "ns1", "pod1", none, none, "", true,
    true, 0⟩

/-- C7: on the spec's worked example the identifier map holds exactly the
CNIAttachmentId and CEPName entries shown, and the short container ID is
the 10-character prefix. -/
theorem C7_worked_example :
    exampleEndpoint.IdentifiersLocked IdentifierKey.CNIAttachmentId
      = some "abcdefghijklmnop:eth0"
    ∧ exampleEndpoint.IdentifiersLocked IdentifierKey.CEPName
      = some "ns1/pod1-eth0"
    ∧ exampleEndpoint.IdentifiersLocked IdentifierKey.ContainerId = none
    ∧ exampleEndpoint.IdentifiersLocked IdentifierKey.DockerEndpoint = none
    ∧ exampleEndpoint.IdentifiersLocked IdentifierKey.IPv4 = none
    ∧ exampleEndpoint.IdentifiersLocked IdentifierKey.IPv6 = none
    ∧ exampleEndpoint.IdentifiersLocked IdentifierKey.ContainerName = none
    ∧ exampleEndpoint.IdentifiersLocked IdentifierKey.PodName = none
    ∧ exampleEndpoint.GetShortContainerID = "abcdefghij" := by
  refine ⟨?_, ?_, ?_, ?_, ?_, ?_, ?_, ?_, ?_⟩ <;> decide

/-- C8: a nil endpoint reference degrades gracefully — the
short-container-ID derivation returns the empty string rather than
failing — and on a valid reference `GetShortContainerID` is the total
function delegating to the same derivation (as are all other accessors
here, all of which are total except the unlocked aggregate accessor,
the only one returning an error-carrying result). -/
theorem C8_nil_short_id_graceful :
    getShortContainerIDLocked none = ""
    ∧ ∀ e : Endpoint,
        e.GetShortContainerID = getShortContainerIDLocked (some e) :=
  ⟨rfl, fun _ => rfl⟩

/-- C9: `HumanString` returns the namespaced CEP name when it is
non-empty and otherwise falls back to the endpoint's numeric string
ID. -/
theorem C9_human_string (e : Endpoint) :
    (e.GetK8sNamespaceAndCEPName ≠ "" →
      e.HumanString = e.GetK8sNamespaceAndCEPName)
    ∧ (e.GetK8sNamespaceAndCEPName = "" →
      e.HumanString = e.StringID) := by
  unfold Endpoint.HumanString
  constructor
  · intro h
    simp [h]
  · intro h
    simp [h]

/-- C9 witness: with the namespaced CEP name non-empty, `HumanString`
returns it. -/
theorem C9_witness :
    Endpoint.HumanString
        ⟨"", "", "", "", "ns1", "pod1", none, none, "", false, true, 42⟩
      = "ns1/pod1" :=
  ((C9_human_string _).1 (by decide)).trans (by decide)

/-- C10: the namespaced pod and CEP names always contain the separator
`/` and are therefore never empty; hence the CEPName key is in every map
`IdentifiersLocked` produces, the PodName key is present whenever legacy
identifiers are not disabled, and `HumanString` never takes its fallback
branch. -/
theorem C10_namespaced_names_nonempty (e : Endpoint) :
    ('/' ∈ e.GetK8sNamespaceAndPodName.data)
    ∧ ('/' ∈ e.GetK8sNamespaceAndCEPName.data)
    ∧ e.GetK8sNamespaceAndPodName ≠ ""
    ∧ e.GetK8sNamespaceAndCEPName ≠ ""
    ∧ Identifiers.contains e.IdentifiersLocked IdentifierKey.CEPName = true
    ∧ (e.disableLegacyIdentifiers = false →
        Identifiers.contains e.IdentifiersLocked IdentifierKey.PodName = true)
    ∧ e.HumanString = e.GetK8sNamespaceAndCEPName := by
  refine ⟨slash_mem_append _ _, slash_mem_append _ _,
    slash_append_ne_empty _ _, slash_append_ne_empty _ _, ?_, fun h => ?_, ?_⟩
  · simp [Identifiers.contains, identifiersLocked_lookup,
      Endpoint.GetK8sNamespaceAndCEPName, slash_append_ne_empty]
  · simp [Identifiers.contains, identifiersLocked_lookup, h,
      Endpoint.GetK8sNamespaceAndPodName, slash_append_ne_empty]
  · unfold Endpoint.HumanString
    simp [Endpoint.GetK8sNamespaceAndCEPName, slash_append_ne_empty]

/-- C10 witness: at a concrete all-empty snapshot with legacy enabled,
both the PodName and CEPName keys are present. -/
theorem C10_witness :
    Identifiers.contains
      (Endpoint.IdentifiersLocked
        ⟨"", "", "", "", "", "", none, none, "", false, true, 0⟩)
      IdentifierKey.PodName = true :=
  (C10_namespaced_names_nonempty _).2.2.2.2.2.1 rfl
